import Mathlib

/-!
Verification development for the Onboarding repository (an
employee-onboarding tracker).  The Python sources embedded here are:

  * Onboarding/policy.py   — role-based access policy (Principal,
    can_access_week, filter_weeks_for_principal);
  * Onboarding/models.py   — entity schema facts the claims rely on
    (status enumeration values, nullability of the Task notes column);
  * app.py                 — template-to-plan materialization
    (create_plan_from_template), the assign-plan route, the
    publish/retire template routes, and the inline due-date and
    status update routes together with the date-string helper
    `_parse_due_date` they use.

Python `date` values are embedded as integers counting days since
1970-01-01; `timedelta(days = n)` addition becomes integer addition.
Calendar dates written `YYYY-MM-DD` in the spec are converted with
`Date.toDays` below (standard civil-calendar day numbering).  Nullable
columns and optional attributes become `Option`.
-/

namespace Onboarding

/-- Civil calendar date (proleptic Gregorian), used to give day numbers to
the concrete dates appearing in the spec and to validate parsed input. -/
structure Date where
  year : Int
  month : Int
  day : Int
deriving DecidableEq, Repr

/-- Gregorian leap-year test, as the Python datetime library uses. -/
def isLeap (y : Int) : Bool :=
  y.emod 4 == 0 && (y.emod 100 != 0 || y.emod 400 == 0)

/-- Number of days in a month of a given year (month given 1..12). -/
def daysInMonth (y m : Int) : Int :=
  if m == 1 then 31
  else if m == 2 then (if isLeap y then 29 else 28)
  else if m == 3 then 31
  else if m == 4 then 30
  else if m == 5 then 31
  else if m == 6 then 30
  else if m == 7 then 31
  else if m == 8 then 31
  else if m == 9 then 30
  else if m == 10 then 31
  else if m == 11 then 30
  else 31

/-- Validity of a civil date exactly as the Python datetime constructor
checks it (year 1..9999, month 1..12, day 1..days-in-month). -/
def Date.valid (d : Date) : Bool :=
  1 ≤ d.year && d.year ≤ 9999 && 1 ≤ d.month && d.month ≤ 12 &&
    1 ≤ d.day && d.day ≤ daysInMonth d.year d.month

/-- Day number of a civil date, counting days since 1970-01-01 (the
standard days-from-civil computation).  `Date.toDays ⟨1970, 1, 1⟩ = 0`. -/
def Date.toDays (d : Date) : Int :=
  let y := if d.month ≤ 2 then d.year - 1 else d.year
  let era := y.fdiv 400
  let yoe := y - era * 400
  let mp := (d.month + 9).emod 12
  let doy := (153 * mp + 2).fdiv 5 + d.day - 1
  let doe := yoe * 365 + yoe.fdiv 4 - yoe.fdiv 100 + doy
  era * 146097 + doe - 719468

/-! ## Stable sorting

The Python builtin `sorted(xs, key = k)` is a stable sort by the key.  We
embed it as a stable insertion sort: an element is inserted before the
first element it compares less-or-equal to, so earlier elements stay before
later elements with an equal key.  For a total preorder the stable sorted
permutation is unique, so this agrees with the Python sort. -/

def insertSorted (le : α → α → Bool) (x : α) : List α → List α
  | [] => [x]
  | y :: ys => if le x y then x :: y :: ys else y :: insertSorted le x ys

def pySorted (le : α → α → Bool) : List α → List α
  | [] => []
  | x :: xs => insertSorted le x (pySorted le xs)

/-- Lexicographic comparison of `(primary, secondary)` sort keys — the
ordering Python tuple comparison gives to two-component sort keys. -/
def keyLe (a b : Int × Int) : Bool :=
  a.1 < b.1 || (a.1 == b.1 && a.2 ≤ b.2)

/-! ## Access policy — Onboarding/policy.py -/

/-- Week row, from the Week model in Onboarding/models.py.  `start_date`,
`end_date`, `owner_user_id`, `manager_user_id`, `onboarding_plan_id` are
all nullable columns. -/
structure Week where
  title : String
  start_date : Option Int
  end_date : Option Int
  owner_user_id : Option Int
  manager_user_id : Option Int
  onboarding_plan_id : Option Int
deriving DecidableEq, Repr

/-- Caller identity, from the Principal dataclass in policy.py:
an optional integer user id and a role string. -/
structure Principal where
  user_id : Option Int
  role : String
deriving DecidableEq, Repr

/-- `Principal.normalized_role`: `(self.role or "").lower()`.  For a string
value `s or ""` is `s` itself, so this is lowercasing. -/
def Principal.normalized_role (p : Principal) : String :=
  p.role.toLower

/-- `can_access_week(principal, week)` from policy.py, line for line:
admin short-circuits to true; a missing user id denies; manager matches on
manager or owner; user matches on owner; any other role denies. -/
def can_access_week (p : Principal) (w : Week) : Bool :=
  let role := p.normalized_role
  if role == "admin" then true
  else if p.user_id == none then false
  else if role == "manager" then
    w.manager_user_id == p.user_id || w.owner_user_id == p.user_id
  else if role == "user" then
    w.owner_user_id == p.user_id
  else false

/-- `filter_weeks_for_principal(principal)` from policy.py, applied to the
full table of weeks: `Week.query` is the whole list, `filter(false())` is
the empty list, and each `filter(...)` keeps the rows satisfying the SQL
predicate (SQL `NULL = x` is not satisfied, matching `Option` equality
against `some`). -/
def filter_weeks_for_principal (p : Principal) (weeks : List Week) :
    List Week :=
  let role := p.normalized_role
  if role == "admin" then weeks
  else if p.user_id == none then []
  else if role == "manager" then
    weeks.filter fun w =>
      w.manager_user_id == p.user_id || w.owner_user_id == p.user_id
  else if role == "user" then
    weeks.filter fun w => w.owner_user_id == p.user_id
  else []

/-- The role table exactly as the spec words it: admin always; null user id
denies (unless admin); manager matches manager-or-owner; user matches
owner; any other role (including builder) denies. -/
def role_table_allows (p : Principal) (w : Week) : Bool :=
  let role := p.role.toLower
  if role == "admin" then true
  else
    match p.user_id with
    | none => false
    | some uid =>
      if role == "manager" then
        w.manager_user_id == some uid || w.owner_user_id == some uid
      else if role == "user" then
        w.owner_user_id == some uid
      else false

/-! ## Entities of the template layer and the plan layer (models.py) -/

/-- TemplateTask row (models.py).  `title`, `responsible_party`,
`due_type`, `is_required`, `order_index` are non-nullable columns; the
rest are nullable. -/
structure TemplateTask where
  id : Int
  title : String
  description : Option String
  responsible_party : String
  due_type : String
  offset_days : Option Int
  section_day : Option Int
  category : Option String
  is_required : Bool
  default_estimated_minutes : Option Int
  order_index : Option Int
deriving DecidableEq, Repr

/-- TemplateSection row (models.py) with its owned tasks.  `order_index`
is a non-nullable column, but the materializer reads it defensively with
`getattr(s, "order_index", None) or 0`, so it is embedded as optional. -/
structure TemplateSection where
  id : Int
  title : String
  description : Option String
  order_index : Option Int
  offset_days : Option Int
  tasks : List TemplateTask
deriving DecidableEq, Repr

/-- OnboardingTemplate row (models.py) with its owned sections. -/
structure OnboardingTemplate where
  id : Int
  name : String
  description : Option String
  status : String
  sections : List TemplateSection
deriving DecidableEq, Repr

/-- User row (models.py). -/
structure User where
  id : Int
  email : String
  full_name : String
  role : String
  onboarding_plan_id : Option Int
  manager_id : Option Int
deriving DecidableEq, Repr

/-- Task row (models.py), with the values the application assigns.  The
notes column is declared `nullable=False, default=""`; the value the
materializer assigns may nevertheless be `None`, so the assigned value is
embedded as `Option String` and the column nullability is recorded
separately in `task_notes_nullable`. -/
structure Task where
  title : Option String
  goal : Option String
  topic : Option String
  due_date : Option Int
  status : String
  notes : Option String
  sort_order : Option Int
deriving DecidableEq, Repr

/-- Schema fact from models.py line 98: `notes = db.Column(db.Text,
nullable=False, default="")` — the notes column does not admit NULL. -/
def task_notes_nullable : Bool := false

/-- A row of the tasks table is insertable only if every non-nullable
column it sets carries a non-null value; for the notes column that is
`task_notes_nullable || notes.isSome`. -/
def task_insert_ok (t : Task) : Bool :=
  task_notes_nullable || t.notes.isSome

/-- OnboardingPlan row (models.py): id, name, description. -/
structure OnboardingPlan where
  id : Int
  name : String
  description : Option String
deriving DecidableEq, Repr

/-- A created Week paired with the Task rows created for it (in the Python
code the tasks are linked to the week by `week_id`). -/
structure BuiltWeek where
  week : Week
  tasks : List Task
deriving DecidableEq, Repr

/-- Result of `create_plan_from_template`: the new plan, the employee row
after the `employee.onboarding_plan_id = plan.id` side effect, and the
created weeks with their tasks. -/
structure MaterializeResult where
  plan : OnboardingPlan
  employee : User
  weeks : List BuiltWeek
deriving DecidableEq, Repr

/-! ## Plan materializer — create_plan_from_template (app.py 193-295) -/

/-- Section sort key: `lambda s: ((getattr(s, "order_index", None) or 0),
s.id)`.  The Python `x or 0` sends both `None` and `0` to `0`, as `getD 0`
does. -/
def section_key (s : TemplateSection) : Int × Int :=
  (s.order_index.getD 0, s.id)

/-- Template-task sort key: `lambda t: ((getattr(t, "order_index", None)
or 0), t.id)`. -/
def template_task_key (t : TemplateTask) : Int × Int :=
  (t.order_index.getD 0, t.id)

/-- `sorted(tpl.sections, key=...)` from the materializer. -/
def sorted_sections (l : List TemplateSection) : List TemplateSection :=
  pySorted (fun a b => keyLe (section_key a) (section_key b)) l

/-- `sorted(section.tasks, key=...)` from the materializer. -/
def sorted_template_tasks (l : List TemplateTask) : List TemplateTask :=
  pySorted (fun a b => keyLe (template_task_key a) (template_task_key b)) l

/-- Due-date computation for one template task (app.py 263-272):
`if due_type == "days_from_start" and t_offset is not None: due = start +
t_offset; elif due_type == "day_within_section" and section_day is not
None: due = week_start + (section_day - 1)`; otherwise `None`.  The two
due-type strings are mutually exclusive, so the chain below has the same
condition structure. -/
def template_task_due (start_date week_start : Int) (tt : TemplateTask) :
    Option Int :=
  if tt.due_type == "days_from_start" then
    match tt.offset_days with
    | some o => some (start_date + o)
    | none => none
  else if tt.due_type == "day_within_section" then
    match tt.section_day with
    | some k => some (week_start + (k - 1))
    | none => none
  else none

/-- The Task row built from one template task (app.py 274-287):
title and goal copy the template title, topic and notes copy the (possibly
null) description, `sort_order` is the enumeration index, status is the
NOT_STARTED enum value. -/
def task_from_template (start_date week_start : Int) (idx : Int)
    (tt : TemplateTask) : Task :=
  { title := some tt.title
    goal := some tt.title
    topic := tt.description
    due_date := template_task_due start_date week_start tt
    status := "Not Started"
    notes := tt.description
    sort_order := some idx }

/-- The task-building loop `for sort_idx, tmpl_task in
enumerate(section_tasks, start=1)` — builds one Task per template task
with consecutive indices starting at `idx`. -/
def build_tasks (start_date week_start : Int) :
    Int → List TemplateTask → List Task
  | _, [] => []
  | idx, tt :: rest =>
    task_from_template start_date week_start idx tt ::
      build_tasks start_date week_start (idx + 1) rest

/-- The body of the section loop (app.py 238-292): week start is
`start_date + (offset_days or 0)`, week end is six days later, the Week
copies the section title and snapshots the employee id and the employee
manager id, and the template tasks of the section are built in sorted
order with 1-based indices. -/
def materialize_section (employee : User) (plan_id : Int)
    (start_date : Int) (s : TemplateSection) : BuiltWeek :=
  let offset := s.offset_days.getD 0
  let week_start := start_date + offset
  let week_end := week_start + 6
  { week :=
      { title := s.title
        start_date := some week_start
        end_date := some week_end
        owner_user_id := some employee.id
        manager_user_id := employee.manager_id
        onboarding_plan_id := some plan_id }
    tasks :=
      build_tasks start_date week_start 1 (sorted_template_tasks s.tasks) }

/-- `create_plan_from_template(template_id, employee, start_date)` (app.py
193-295).  The plan id produced by `db.session.flush()` is passed in as
`plan_id` (the OnboardingPlan model has no `template_id` or `start_date`
attribute, so the two `hasattr` branches do not fire).  The employee is
returned with `onboarding_plan_id` set to the new plan id, and one week is
built per section, in sorted section order. -/
def create_plan_from_template (tpl : OnboardingTemplate) (employee : User)
    (start_date : Int) (plan_id : Int) : MaterializeResult :=
  { plan :=
      { id := plan_id, name := tpl.name, description := tpl.description }
    employee := { employee with onboarding_plan_id := some plan_id }
    weeks :=
      (sorted_sections tpl.sections).map
        (materialize_section employee plan_id start_date) }

/-- Due-date rule of the materializer exactly as the claim words it:
start plus offset when due type is days_from_start and the offset is set;
week start plus day-minus-one when due type is day_within_section and the
section day is set; null in every other case. -/
def due_date_rule (start_date week_start : Int) (tt : TemplateTask) :
    Option Int :=
  if tt.due_type == "days_from_start" && tt.offset_days.isSome then
    some (start_date + tt.offset_days.getD 0)
  else if tt.due_type == "day_within_section" && tt.section_day.isSome then
    some (week_start + (tt.section_day.getD 0 - 1))
  else none

/-! ## Date-string parsing — _parse_due_date (app.py 627-637) -/

def pyStripChars (cs : List Char) : List Char :=
  ((cs.dropWhile Char.isWhitespace).reverse.dropWhile
    Char.isWhitespace).reverse

/-- Python `str.strip()` (whitespace on the relevant inputs is ASCII). -/
def pyStrip (s : String) : String :=
  ⟨pyStripChars s.data⟩

/-- Parse exactly `n` digits, most significant first. -/
def parseDigitsAux : Nat → Nat → List Char → Option (Nat × List Char)
  | 0, acc, cs => some (acc, cs)
  | _ + 1, _, [] => none
  | n + 1, acc, c :: cs =>
    if c.isDigit then parseDigitsAux n (acc * 10 + (c.toNat - 48)) cs
    else none

def parseFixedDigits (n : Nat) (cs : List Char) :
    Option (Nat × List Char) :=
  parseDigitsAux n 0 cs

/-- The strptime `%m` directive: the regex `1[0-2]|0[1-9]|[1-9]` — a
two-digit month 01..12 when the next two characters form one, else a
single digit 1..9.  (The regex backtracks, but the character following the
month in the formats used here is never a digit, so taking two digits
whenever they form a valid month is equivalent.) -/
def parseMonth : List Char → Option (Nat × List Char)
  | [] => none
  | [c1] =>
    if c1.isDigit && decide (1 ≤ c1.toNat - 48) then
      some (c1.toNat - 48, [])
    else none
  | c1 :: c2 :: rest =>
    if c1.isDigit && c2.isDigit then
      let v := (c1.toNat - 48) * 10 + (c2.toNat - 48)
      if decide (1 ≤ v) && decide (v ≤ 12) then some (v, rest)
      else if decide (1 ≤ c1.toNat - 48) then
        some (c1.toNat - 48, c2 :: rest)
      else none
    else if c1.isDigit && decide (1 ≤ c1.toNat - 48) then
      some (c1.toNat - 48, c2 :: rest)
    else none

/-- The strptime `%d` directive: the regex `3[01]|[12]\d|0[1-9]|[1-9]` — a
two-digit day 01..31 when possible, else a single digit 1..9. -/
def parseDay : List Char → Option (Nat × List Char)
  | [] => none
  | [c1] =>
    if c1.isDigit && decide (1 ≤ c1.toNat - 48) then
      some (c1.toNat - 48, [])
    else none
  | c1 :: c2 :: rest =>
    if c1.isDigit && c2.isDigit then
      let v := (c1.toNat - 48) * 10 + (c2.toNat - 48)
      if decide (1 ≤ v) && decide (v ≤ 31) then some (v, rest)
      else if decide (1 ≤ c1.toNat - 48) then
        some (c1.toNat - 48, c2 :: rest)
      else none
    else if c1.isDigit && decide (1 ≤ c1.toNat - 48) then
      some (c1.toNat - 48, c2 :: rest)
    else none

/-- A literal character of the format string. -/
def parseLit (c : Char) : List Char → Option (List Char)
  | [] => none
  | d :: rest => if d == c then some rest else none

/-- strptime with format `%Y-%m-%d`: a four-digit year, `-`, month, `-`,
day, nothing left over. -/
def parseYmd (cs : List Char) : Option Date :=
  match parseFixedDigits 4 cs with
  | none => none
  | some (y, cs1) =>
    match parseLit '-' cs1 with
    | none => none
    | some cs2 =>
      match parseMonth cs2 with
      | none => none
      | some (m, cs3) =>
        match parseLit '-' cs3 with
        | none => none
        | some cs4 =>
          match parseDay cs4 with
          | none => none
          | some (d, cs5) =>
            if cs5.isEmpty then some ⟨(y : Int), (m : Int), (d : Int)⟩
            else none

/-- The strptime `%y` directive: exactly two digits; 00..68 maps to
2000..2068 and 69..99 to 1969..1999 (the CPython century rule). -/
def yearFromTwoDigits (y : Nat) : Nat :=
  if y ≤ 68 then 2000 + y else 1900 + y

/-- strptime with format `%m/%d/%y`. -/
def parseMdy2 (cs : List Char) : Option Date :=
  match parseMonth cs with
  | none => none
  | some (m, cs1) =>
    match parseLit '/' cs1 with
    | none => none
    | some cs2 =>
      match parseDay cs2 with
      | none => none
      | some (d, cs3) =>
        match parseLit '/' cs3 with
        | none => none
        | some cs4 =>
          match parseFixedDigits 2 cs4 with
          | none => none
          | some (y, cs5) =>
            if cs5.isEmpty then
              some ⟨(yearFromTwoDigits y : Int), (m : Int), (d : Int)⟩
            else none

/-- strptime with format `%m/%d/%Y`. -/
def parseMdy4 (cs : List Char) : Option Date :=
  match parseMonth cs with
  | none => none
  | some (m, cs1) =>
    match parseLit '/' cs1 with
    | none => none
    | some cs2 =>
      match parseDay cs2 with
      | none => none
      | some (d, cs3) =>
        match parseLit '/' cs3 with
        | none => none
        | some cs4 =>
          match parseFixedDigits 4 cs4 with
          | none => none
          | some (y, cs5) =>
            if cs5.isEmpty then some ⟨(y : Int), (m : Int), (d : Int)⟩
            else none

/-- `datetime.strptime(s, fmt).date()` for one format: the textual parse
followed by the civil-date validation the datetime constructor performs. -/
def strptimeDate (p : List Char → Option Date) (s : String) : Option Date :=
  match p s.data with
  | some d => if d.valid then some d else none
  | none => none

/-- `_parse_due_date(s)` (app.py 627-637): strip, return `None` when
empty, then try the formats `%Y-%m-%d`, `%m/%d/%y`, `%m/%d/%Y` in order,
returning `None` when all fail.  (The richer parser `parse_due_date` at
app.py line 92 — `today`, `tomorrow`, signed offsets, lenient fallback —
is not called by the due-date update route.)  The parsed date is returned
as its day number. -/
def _parse_due_date (s : String) : Option Int :=
  let t := pyStrip s
  if t == "" then none
  else
    match strptimeDate parseYmd t with
    | some d => some d.toDays
    | none =>
      match strptimeDate parseMdy2 t with
      | some d => some d.toDays
      | none =>
        match strptimeDate parseMdy4 t with
        | some d => some d.toDays
        | none => none

/-- Python `a or b` for an optional string `a`: the first operand when it
is present and non-empty (truthy), otherwise `b`. -/
def orStr (a : Option String) (b : String) : String :=
  match a with
  | some s => if s == "" then b else s
  | none => b

/-- `update_due_date` (app.py 659-691): a clear flag set to 1 clears the
date; otherwise the first non-empty of the due_date and due_date_text
fields is stripped and parsed; a non-empty unparseable input returns a 400
error without touching the task; otherwise the parsed value (or `None`
for empty input) is stored.  The second component is the HTTP error code
(`some 400`) or `none` for a success response. -/
def update_due_date (t : Task)
    (clear due_date_field due_date_text_field : Option String) :
    Task × Option Nat :=
  if clear == some "1" then ({ t with due_date := none }, none)
  else
    let raw := pyStrip (orStr due_date_field (orStr due_date_text_field ""))
    let parsed := _parse_due_date raw
    if raw != "" && parsed.isNone then (t, some 400)
    else ({ t with due_date := parsed }, none)

/-! ## Status update — update_status (app.py 715-747) -/

/-- `[e.value for e in StatusEnum]` from models.py: the closed set of task
status labels, in declaration order. -/
def status_enum_values : List String :=
  ["Not Started", "In Progress", "Complete"]

/-- Response of the status-update route: the re-rendered form with an
error and status 400 (HTMX), a redirect (non-HTMX paths), or the display
fragment (HTMX success). -/
inductive StatusUpdateOutcome where
  | form_error (code : Nat)
  | redirected
  | display
deriving DecidableEq, Repr

/-- `update_status` (app.py 715-747): the submitted label is stripped; a
label outside the enum values leaves the task untouched and returns the
form with an error (400) for HTMX requests or a redirect otherwise; a
valid label is stored (the string-backed enum stores its value). -/
def update_status (t : Task) (status_field : Option String) (hx : Bool) :
    Task × StatusUpdateOutcome :=
  let label := pyStrip (status_field.getD "")
  if !(status_enum_values.contains label) then
    (t, if hx then .form_error 400 else .redirected)
  else
    ({ t with status := label }, if hx then .display else .redirected)

/-! ## Template publish / retire routes (app.py 1053-1080) -/

/-- `publish_template` (app.py 1053-1065): sets status to published unless
the template is retired, in which case nothing changes. -/
def publish_template (t : OnboardingTemplate) : OnboardingTemplate :=
  if t.status != "retired" then { t with status := "published" } else t

/-- `retire_template` (app.py 1068-1080): sets status to retired unless it
already is. -/
def retire_template (t : OnboardingTemplate) : OnboardingTemplate :=
  if t.status != "retired" then { t with status := "retired" } else t

/-- One invocation of either template status route. -/
inductive TemplateRouteOp where
  | publish
  | retire
deriving DecidableEq, Repr

def apply_template_op (op : TemplateRouteOp) (t : OnboardingTemplate) :
    OnboardingTemplate :=
  match op with
  | .publish => publish_template t
  | .retire => retire_template t

def apply_template_ops : List TemplateRouteOp → OnboardingTemplate →
    OnboardingTemplate
  | [], t => t
  | op :: rest, t => apply_template_ops rest (apply_template_op op t)

/-! ## Assign-plan route (app.py 1112-1166) -/

/-- The tables the assign route touches. -/
structure Database where
  templates : List OnboardingTemplate
  users : List User
  plans : List OnboardingPlan
  weeks : List BuiltWeek
deriving DecidableEq, Repr

inductive AssignOutcome where
  | http_error (code : Nat)
  | assigned (plan_id : Int)
deriving DecidableEq, Repr

/-- `require_manager_or_admin` (app.py 170-179): manager and admin are
allowed, and builder too since `RoleEnum.BUILDER` exists; the role string
is compared as stored, without lowercasing. -/
def assign_allowed_roles : List String :=
  ["manager", "admin", "builder"]

/-- `assign_plan` (app.py 1112-1166) from the point the form ids are
integers: 403 unless the actor role allows assignment; 404 when the
template or employee id resolves to no row; 400 when the template is not
published — each of these aborts before anything is created; otherwise
the start date is parsed with `%Y-%m-%d` (falling back to today on blank
or invalid input) and the materializer runs, its rows committed into the
database and the employee row updated. -/
def assign_plan (db : Database) (actor : User)
    (template_id employee_id : Int) (start_raw : String) (today : Int) :
    Database × AssignOutcome :=
  if !(assign_allowed_roles.contains actor.role) then
    (db, .http_error 403)
  else
    match db.templates.find? (fun t => t.id == template_id) with
    | none => (db, .http_error 404)
    | some tpl =>
      if tpl.status != "published" then (db, .http_error 400)
      else
        match db.users.find? (fun u => u.id == employee_id) with
        | none => (db, .http_error 404)
        | some emp =>
          let sraw := pyStrip start_raw
          let start_date :=
            if sraw != "" then
              match strptimeDate parseYmd sraw with
              | some d => d.toDays
              | none => today
            else today
          let plan_id := (Int.ofNat db.plans.length) + 1
          let r := create_plan_from_template tpl emp start_date plan_id
          ({ db with
              plans := db.plans ++ [r.plan]
              weeks := db.weeks ++ r.weeks
              users := db.users.map
                (fun u => if u.id == emp.id then r.employee else u) },
            .assigned plan_id)

/-! ## Concrete instances used by examples and witnesses -/

/-- The two-section template of the spec example, with ids in authoring
order and order_index unset. -/
def spec_example_template : OnboardingTemplate :=
  { id := 1
    name := "Example"
    description := none
    status := "published"
    sections :=
      [ { id := 1
          title := "Week 1"
          description := none
          order_index := none
          offset_days := some 0
          tasks :=
            [ { id := 1
                title := "Task1"
                description := some "Details 1"
                responsible_party := "New Hire"
                due_type := "days_from_start"
                offset_days := some 3
                section_day := none
                category := none
                is_required := true
                default_estimated_minutes := none
                order_index := none } ] },
        { id := 2
          title := "Week 2"
          description := none
          order_index := none
          offset_days := some 7
          tasks :=
            [ { id := 2
                title := "Task2"
                description := some "Details 2"
                responsible_party := "New Hire"
                due_type := "day_within_section"
                offset_days := none
                section_day := some 2
                category := none
                is_required := true
                default_estimated_minutes := none
                order_index := none } ] } ] }

/-- A concrete employee for the example. -/
def spec_example_employee : User :=
  { id := 42
    email := "new.hire"
    full_name := "New Hire"
    role := "user"
    onboarding_plan_id := none
    manager_id := some 7 }

/-- A task with a stored due date, to exhibit behaviour of the update
routes. -/
def sample_task : Task :=
  { title := some "Read handbook"
    goal := some "Read handbook"
    topic := none
    due_date := some (Date.toDays ⟨2025, 1, 9⟩)
    status := "Not Started"
    notes := some ""
    sort_order := some 1 }

/-- A database holding one draft template and one employee. -/
def draft_db : Database :=
  { templates := [{ spec_example_template with status := "draft" }]
    users := [spec_example_employee]
    plans := []
    weeks := [] }

/-- An admin actor for the assign route. -/
def admin_actor : User :=
  { id := 9
    email := "boss"
    full_name := "Boss"
    role := "admin"
    onboarding_plan_id := none
    manager_id := none }

end Onboarding

namespace Onboarding

/-! ## Helper lemmas -/

/-- Sanity of the day numbering: the epoch has day number 0. -/
theorem toDays_epoch : Date.toDays ⟨1970, 1, 1⟩ = 0 := by decide

/-- Sanity: consecutive dates across a month boundary differ by one day. -/
theorem toDays_step_example :
    Date.toDays ⟨2025, 1, 31⟩ + 1 = Date.toDays ⟨2025, 2, 1⟩ := by decide

theorem mem_insertSorted (le : α → α → Bool) (x a : α) (l : List α) :
    a ∈ insertSorted le x l ↔ a = x ∨ a ∈ l := by
  induction l with
  | nil => simp [insertSorted]
  | cons y ys ih =>
    simp only [insertSorted]
    split_ifs <;> simp [ih] <;> tauto

theorem mem_pySorted (le : α → α → Bool) (a : α) (l : List α) :
    a ∈ pySorted le l ↔ a ∈ l := by
  induction l with
  | nil => simp [pySorted]
  | cons x xs ih => simp [pySorted, mem_insertSorted, ih]

theorem all_insertSorted (le : α → α → Bool) (p : α → Bool) (x : α)
    (l : List α) : (insertSorted le x l).all p = (p x && l.all p) := by
  induction l with
  | nil => simp [insertSorted]
  | cons y ys ih =>
    simp only [insertSorted]
    split_ifs <;> simp [ih] <;>
      cases p x <;> cases p y <;> simp

theorem all_pySorted (le : α → α → Bool) (p : α → Bool) (l : List α) :
    (pySorted le l).all p = l.all p := by
  induction l with
  | nil => rfl
  | cons x xs ih => simp [pySorted, all_insertSorted, ih]

theorem all_map_eval (f : α → β) (p : β → Bool) (l : List α) :
    (l.map f).all p = l.all (fun a => p (f a)) := by
  induction l <;> simp_all

theorem build_tasks_eq_mapIdx (sd ws : Int) (l : List TemplateTask)
    (n : Int) :
    build_tasks sd ws n l
      = l.mapIdx (fun i tt => task_from_template sd ws (n + (i : Int)) tt) := by
  induction l generalizing n with
  | nil => simp [build_tasks]
  | cons tt rest ih =>
    simp only [build_tasks, List.mapIdx_cons, ih]
    have h1 : ∀ (i : ℕ), n + 1 + (i : Int) = n + (((i + 1 : Nat) : Int)) := by
      intro i; push_cast; ring
    simp [h1]

theorem due_date_rule_eq (sd ws : Int) (tt : TemplateTask) :
    due_date_rule sd ws tt = template_task_due sd ws tt := by
  unfold due_date_rule template_task_due
  cases ho : tt.offset_days <;> cases hs : tt.section_day <;>
    split_ifs <;> simp_all

theorem build_tasks_all_insert_ok (sd ws : Int) (l : List TemplateTask)
    (n : Int) :
    (build_tasks sd ws n l).all task_insert_ok
      = l.all (fun tt => tt.description.isSome) := by
  induction l generalizing n with
  | nil => rfl
  | cons tt rest ih =>
    simp [build_tasks, task_insert_ok, task_from_template,
      task_notes_nullable, ih]

theorem build_tasks_all_topic_eq_notes (sd ws : Int)
    (l : List TemplateTask) (n : Int) :
    (build_tasks sd ws n l).all (fun t => t.topic == t.notes) = true := by
  induction l generalizing n with
  | nil => rfl
  | cons tt rest ih =>
    simp [build_tasks, task_from_template, ih]

/-! ## Claim theorems -/

/-- C1: `can_access_week` decides access exactly as the role table
prescribes after lowercasing the role — admin always allowed regardless of
user id; otherwise a null user id is denied; manager allowed iff it
manages or owns the week; user allowed iff it owns the week; any other
role (including builder) denied. -/
theorem can_access_week_matches_role_table (p : Principal) (w : Week) :
    can_access_week p w = role_table_allows p w := by
  cases hu : p.user_id <;>
    simp [can_access_week, role_table_allows, Principal.normalized_role, hu]

/-- C2: for every principal, `filter_weeks_for_principal` returns exactly
the weeks that `can_access_week` admits — all weeks for admin, the empty
list (not all rows) for a null user id with a non-admin role or for an
unknown role, and the matching owner/manager rows otherwise. -/
theorem filter_weeks_agrees_with_can_access (p : Principal)
    (weeks : List Week) :
    filter_weeks_for_principal p weeks =
      weeks.filter (fun w => can_access_week p w) := by
  unfold filter_weeks_for_principal can_access_week
  cases hu : p.user_id with
  | none =>
    simp [hu]
    split_ifs <;> simp_all
  | some uid =>
    simp [hu]
    split_ifs <;> simp_all

/-- C3: the materializer walks the sections in `(order_index, id)` sorted
order (absent order_index read as 0) and creates exactly one week per
section spanning `start_date + offset_days` to six days later; on the
two-section example of the spec materialized against 2025-01-06, Week 1
spans 2025-01-06 to 2025-01-12 and Week 2 spans 2025-01-13 to
2025-01-19. -/
theorem create_plan_week_dates :
    (∀ (tpl : OnboardingTemplate) (emp : User) (sd pid : Int),
      ((create_plan_from_template tpl emp sd pid).weeks).map
          (fun bw => (bw.week.title, bw.week.start_date, bw.week.end_date))
        = (sorted_sections tpl.sections).map
            (fun s => (s.title, some (sd + s.offset_days.getD 0),
              some (sd + s.offset_days.getD 0 + 6))))
    ∧ ((create_plan_from_template spec_example_template
          spec_example_employee (Date.toDays ⟨2025, 1, 6⟩) 1).weeks).map
          (fun bw => (bw.week.start_date, bw.week.end_date))
        = [(some (Date.toDays ⟨2025, 1, 6⟩),
              some (Date.toDays ⟨2025, 1, 12⟩)),
           (some (Date.toDays ⟨2025, 1, 13⟩),
              some (Date.toDays ⟨2025, 1, 19⟩))] := by
  constructor
  · intro tpl emp sd pid
    simp [create_plan_from_template, materialize_section, List.map_map,
      Function.comp]
  · decide

/-- C4: within each materialized section the template tasks are walked in
`(order_index, id)` sorted order, each created task gets the 1-based
`sort_order` following that order, and its due date obeys the due-date
rule (start plus offset for days_from_start with offset set; week start
plus day-minus-one for day_within_section with section day set; null
otherwise). -/
theorem create_plan_task_order_and_due :
    ∀ (tpl : OnboardingTemplate) (emp : User) (sd pid : Int),
      ((create_plan_from_template tpl emp sd pid).weeks).map
          (fun bw => bw.tasks)
        = (sorted_sections tpl.sections).map (fun s =>
            (sorted_template_tasks s.tasks).mapIdx (fun i tt =>
              { title := some tt.title
                goal := some tt.title
                topic := tt.description
                due_date :=
                  due_date_rule sd (sd + s.offset_days.getD 0) tt
                status := "Not Started"
                notes := tt.description
                sort_order := some ((i : Int) + 1) })) := by
  intro tpl emp sd pid
  simp only [create_plan_from_template, List.map_map]
  congr 1
  funext s
  simp only [Function.comp_apply, materialize_section]
  simp only [build_tasks_eq_mapIdx]
  congr 1
  funext i tt
  simp [task_from_template, due_date_rule_eq, Task.mk.injEq, add_comm]

/-- C5: materialization assigns the new plan to the employee (the returned
employee row carries `onboarding_plan_id = plan id`), every created week
is owned by the employee with the manager id snapshotted from the employee
row passed in — so a later manager change (a different employee row) does
not alter what was created from the original row. -/
theorem create_plan_employee_and_manager_snapshot :
    ∀ (tpl : OnboardingTemplate) (emp : User) (sd pid : Int),
      (create_plan_from_template tpl emp sd pid).employee
          = { emp with onboarding_plan_id := some pid }
      ∧ (((create_plan_from_template tpl emp sd pid).weeks).all
          (fun bw => bw.week.owner_user_id == some emp.id
            && bw.week.manager_user_id == emp.manager_id)) = true
      ∧ ∀ m2 : Option Int,
          (((create_plan_from_template tpl
              { emp with manager_id := m2 } sd pid).weeks).all
            (fun bw => bw.week.manager_user_id == m2)) = true := by
  intro tpl emp sd pid
  refine ⟨rfl, ?_, ?_⟩
  · simp [create_plan_from_template, materialize_section, List.all_map,
      Function.comp, List.all_eq_true]
  · intro m2
    simp [create_plan_from_template, materialize_section, List.all_map,
      Function.comp, List.all_eq_true]

/-- C6: assigning from a template that exists but is not published fails
with a 400 precondition error and leaves the database untouched — no
plan, week or task rows are appended and no user row changes. -/
theorem assign_plan_blocks_unpublished :
    ∀ (db : Database) (actor : User) (tid eid : Int) (sraw : String)
      (today : Int) (tpl : OnboardingTemplate),
      assign_allowed_roles.contains actor.role = true →
      db.templates.find? (fun t => t.id == tid) = some tpl →
      tpl.status ≠ "published" →
      assign_plan db actor tid eid sraw today
        = (db, AssignOutcome.http_error 400) := by
  intro db actor tid eid sraw today tpl h1 h2 h3
  have hm : actor.role ∈ assign_allowed_roles := by simpa using h1
  simp [assign_plan, hm, h2, h3]

/-- Witness for C6: assigning the draft template concretely returns the
400 error and the unchanged database. -/
theorem assign_plan_blocks_unpublished_witness :
    assign_plan draft_db admin_actor 1 42 "2025-01-06" 0
      = (draft_db, AssignOutcome.http_error 400) :=
  assign_plan_blocks_unpublished draft_db admin_actor 1 42 "2025-01-06" 0
    { spec_example_template with status := "draft" }
    (by decide) (by decide) (by decide)

/-- C7 counterexample: `today` is one of the documented input forms, yet
the due-date update rejects it with a validation error (it is not parsed
by any of the three accepted formats), leaving the stored date
unchanged. -/
theorem update_due_date_rejects_today :
    _parse_due_date "today" = none
    ∧ update_due_date sample_task none (some "today") none
        = (sample_task, some 400)
    ∧ sample_task.due_date = some (Date.toDays ⟨2025, 1, 9⟩) := by
  decide

/-- C7 amended: the operation accepts exactly — clear flag or empty input
(clears the stored date), ISO `YYYY-MM-DD`, `MM/DD/YY`, `MM/DD/YYYY`;
every other non-empty input is rejected with a 400 validation error
leaving the task unchanged.  The relative and lenient forms (`today`,
`tomorrow`, `yesterday`, `+3`, `-5`, free-form text) are all rejected. -/
theorem update_due_date_amended :
    (∀ (t : Task) (clear dd ddt : Option String),
      update_due_date t clear dd ddt =
        (if clear == some "1" then
          ({ t with due_date := none }, (none : Option Nat))
        else
          let raw := pyStrip (orStr dd (orStr ddt ""))
          match _parse_due_date raw with
          | some d => ({ t with due_date := some d }, none)
          | none =>
            if raw == "" then ({ t with due_date := none }, none)
            else (t, some 400)))
    ∧ _parse_due_date "2025-01-06" = some (Date.toDays ⟨2025, 1, 6⟩)
    ∧ _parse_due_date "01/06/25" = some (Date.toDays ⟨2025, 1, 6⟩)
    ∧ _parse_due_date "01/06/2025" = some (Date.toDays ⟨2025, 1, 6⟩)
    ∧ _parse_due_date "today" = none
    ∧ _parse_due_date "tomorrow" = none
    ∧ _parse_due_date "yesterday" = none
    ∧ _parse_due_date "+3" = none
    ∧ _parse_due_date "-5" = none
    ∧ _parse_due_date "Jan 6, 2025" = none := by
  refine ⟨?_, by decide, by decide, by decide, by decide, by decide,
    by decide, by decide, by decide, by decide⟩
  intro t clear dd ddt
  simp only [update_due_date]
  cases hc : clear == some "1" with
  | true => simp
  | false =>
    simp only [Bool.false_eq_true, if_false]
    cases hp : _parse_due_date (pyStrip (orStr dd (orStr ddt ""))) with
    | some d => simp [hp]
    | none =>
      cases hr : pyStrip (orStr dd (orStr ddt "")) == "" with
      | true => simp [hp, hr, eq_of_beq hr]
      | false => simp [hp, hr, ne_of_beq_false hr]

/-- C8 counterexample: the submitted label `" Complete "` is not exactly
one of the three allowed values, yet the operation strips it and mutates
the stored status to `"Complete"` instead of rejecting. -/
theorem update_status_accepts_padded_label :
    (" Complete " ∈ status_enum_values → False)
    ∧ update_status sample_task (some " Complete ") true
        = ({ sample_task with status := "Complete" },
            StatusUpdateOutcome.display) := by
  decide

/-- C8 amended: the submitted label is whitespace-stripped first; when the
stripped label is not exactly one of the three allowed values the task is
left unchanged and the edit form is re-rendered with a 400 validation
error (HTMX; a plain redirect otherwise); when the stripped label is
exactly an allowed value the status is set to it. -/
theorem update_status_amended :
    (∀ (t : Task) (sf : Option String) (hx : Bool),
      update_status t sf hx =
        (let label := pyStrip (sf.getD "")
         if status_enum_values.contains label then
           ({ t with status := label },
             if hx then StatusUpdateOutcome.display
             else StatusUpdateOutcome.redirected)
         else
           (t, if hx then StatusUpdateOutcome.form_error 400
               else StatusUpdateOutcome.redirected)))
    ∧ status_enum_values = ["Not Started", "In Progress", "Complete"] := by
  refine ⟨?_, rfl⟩
  intro t sf hx
  simp only [update_status]
  cases h : status_enum_values.contains (pyStrip (sf.getD "")) <;> simp [h]

/-- C9: template status transitions are one-directional — under any
sequence of publish and retire route invocations a retired template stays
retired, and the publish route leaves a retired template entirely
unchanged. -/
theorem retired_templates_stay_retired :
    (∀ (ops : List TemplateRouteOp) (t : OnboardingTemplate),
      t.status = "retired" → (apply_template_ops ops t).status = "retired")
    ∧ (∀ t : OnboardingTemplate, t.status = "retired" →
        publish_template t = t) := by
  constructor
  · intro ops
    induction ops with
    | nil => intro t h; exact h
    | cons op rest ih =>
      intro t h
      apply ih
      cases op <;>
        simp [apply_template_op, publish_template, retire_template, h]
  · intro t h
    simp [publish_template, h]

/-- Witness for C9 at a concrete retired template and operation
sequence. -/
theorem retired_templates_stay_retired_witness :
    (apply_template_ops [TemplateRouteOp.publish, TemplateRouteOp.retire,
        TemplateRouteOp.publish]
      { spec_example_template with status := "retired" }).status = "retired"
    ∧ publish_template { spec_example_template with status := "retired" }
        = { spec_example_template with status := "retired" } :=
  ⟨retired_templates_stay_retired.1 _ _ rfl,
    retired_templates_stay_retired.2 _ rfl⟩

/-- C10: every materialized task copies the template-task description into
both topic and notes, so the created rows all satisfy the non-null
constraint on the notes column exactly when every template task has a
description — a template task with a null description yields a task row
whose notes (and topic) are null, which the schema declared for the notes
column (`task_notes_nullable = false`) rejects at insert. -/
theorem materialization_notes_constraint :
    ∀ (tpl : OnboardingTemplate) (emp : User) (sd pid : Int),
      ((tpl.sections.all (fun s => s.tasks.all
            (fun tt => tt.description.isSome)))
          = (((create_plan_from_template tpl emp sd pid).weeks).all
              (fun bw => bw.tasks.all task_insert_ok)))
      ∧ (((create_plan_from_template tpl emp sd pid).weeks).all
          (fun bw => bw.tasks.all (fun t => t.topic == t.notes))) = true := by
  intro tpl emp sd pid
  constructor
  · simp only [create_plan_from_template]
    rw [all_map_eval]
    have h2 : ∀ s : TemplateSection,
        ((materialize_section emp pid sd s).tasks.all task_insert_ok)
          = s.tasks.all (fun tt => tt.description.isSome) := by
      intro s
      simp only [materialize_section]
      rw [build_tasks_all_insert_ok, sorted_template_tasks, all_pySorted]
    simp only [h2]
    rw [sorted_sections, all_pySorted]
  · simp only [create_plan_from_template]
    rw [all_map_eval]
    have h3 : ∀ s : TemplateSection,
        ((materialize_section emp pid sd s).tasks.all
          (fun t => t.topic == t.notes)) = true := by
      intro s
      simp only [materialize_section]
      exact build_tasks_all_topic_eq_notes _ _ _ _
    simp [h3]

end Onboarding
